import Mathlib

/-!
Shallow embedding of `metakube/resource_metakube_node_deployment_schema.go`
from multi-io/terraform-provider-metakube, together with theorems about the
validators, diff-suppression functions and the declared schema data.

Conventions used throughout:
* Go strings are modelled as Lean `String`s (lists of characters).  The Go
  code only ever compares against ASCII bytes; because UTF-8 is
  self-synchronizing, byte-level substring/prefix operations on valid UTF-8
  coincide with character-level ones, so the character-level model is
  faithful.
* Go `error` return values are modelled as `Option String` (`none` = `nil`,
  `some msg` = an error whose `Error()` text is `msg`).
* Go `interface{}` values, as used by this file, are modelled by `GoVal`.
* `uint64` arithmetic is modelled on `Nat` with the overflow comparisons of
  the Go source written out explicitly (and `% 2 ^ 64` where the Go code can
  actually wrap).
-/

namespace Metakube

/-- Model of Go `strings.Contains s substr`. -/
def stringsContains (s substr : String) : Bool :=
  decide (substr.data <:+: s.data)

/-- Embedding of `matakubeResourceNodeDeploymentLabelOrTagReserved`: loops
over the fixed list of reserved substrings and returns true on the first one
contained in `path`. -/
def matakubeResourceNodeDeploymentLabelOrTagReserved (path : String) : Bool :=
  [ "metakube-cluster",
    "system-project",
    "system-cluster",
    "system/cluster",
    "system/project",
    "kubernetes.io",
    "syseleven.de" ].any (fun substr => stringsContains path substr)

/-- Embedding of the anchored regular expression
`^(syseleven\.de|metakube|system|kubernetes\.io)([/\-])` compiled in
`matakubeResourceNodeDeploymentValidateLabelOrTag`: the key matches exactly
when it starts with one of the four alternatives immediately followed by
`/` or `-`. -/
def forbiddenLabelOrTagRegexMatch (key : String) : Bool :=
  [ "syseleven.de", "metakube", "system", "kubernetes.io" ].any fun p =>
    [ "/", "-" ].any fun sep => decide ((p ++ sep).data <+: key.data)

/-- Embedding of `matakubeResourceNodeDeploymentValidateLabelOrTag`: returns
`fmt.Errorf("forbidden tag or label prefix %s", key)` when the regular
expression matches, `nil` otherwise. -/
def matakubeResourceNodeDeploymentValidateLabelOrTag (key : String) : Option String :=
  if forbiddenLabelOrTagRegexMatch key then
    some ("forbidden tag or label prefix " ++ key)
  else
    none

end Metakube

namespace Metakube

/-!
Embedding of Go's `time.ParseDuration` (`time/format.go`), which is the
library routine the duration validator of the schema file delegates to.
Faithful to the Go source, with `uint64` arithmetic carried out on `Nat`
and the overflow comparisons written out; the single use of `float64`
(the fractional part `uint64(float64(f) * (float64(unit) / scale))`) is
modelled by the exact quantity `f * unit / scale`, which agrees with the
Go computation except for last-ulp rounding on extreme inputs.
-/

/-- Numeric value of an ASCII digit, Go's `uint64(c) - '0'`. -/
def digitVal (c : Char) : Nat := c.toNat - '0'.toNat

/-- Lower-case hexadecimal digit, Go's `lowerhex[n]`. -/
def lowerHexDigit (n : Nat) : Char :=
  if n < 10 then Char.ofNat ('0'.toNat + n) else Char.ofNat ('a'.toNat + (n - 10))

/-- UTF-8 byte sequence of a character, used by the quoting helper. -/
def utf8ByteList (c : Char) : List Nat :=
  let n := c.toNat
  if n < 128 then [n]
  else if n < 2048 then [192 + n / 64, 128 + n % 64]
  else if n < 65536 then [224 + n / 4096, 128 + (n / 64) % 64, 128 + n % 64]
  else [240 + n / 262144, 128 + (n / 4096) % 64, 128 + (n / 64) % 64, 128 + n % 64]

/-- Quoting of one character inside Go's `time` package `quote` helper:
characters at or above `runeSelf` (0x80) and control characters are emitted
as `\xhh` byte escapes, quotes and backslashes are backslash-escaped, and
everything else passes through.  (The `utf8.RuneError` special case of the
Go source only concerns invalid UTF-8 input, which a Lean `String` cannot
represent.) -/
def quoteGoChar (c : Char) : List Char :=
  if 128 ≤ c.toNat ∨ c.toNat < 32 then
    (utf8ByteList c).foldr
      (fun b acc => '\\' :: 'x' :: lowerHexDigit (b / 16) :: lowerHexDigit (b % 16) :: acc) []
  else if c = '"' ∨ c = '\\' then ['\\', c]
  else [c]

/-- Go `time` package `quote`: wraps the string in double quotes, escaping
as `quoteGoChar` describes. -/
def quoteGo (s : String) : String :=
  String.mk ('"' :: s.data.foldr (fun c acc => quoteGoChar c ++ acc) ['"'])

/-- The `"time: invalid duration " + quote(orig)` error text. -/
def invalidDurationErr (orig : String) : String :=
  "time: invalid duration " ++ quoteGo orig

/-- Embedding of Go `leadingInt`: consumes leading decimal digits into a
`uint64` accumulator, failing (`none`) on overflow past `1<<63`. -/
def leadingInt : List Char → Nat → Option (Nat × List Char)
  | [], x => some (x, [])
  | c :: rest, x =>
    if c < '0' ∨ '9' < c then some (x, c :: rest)
    else if x > (2 ^ 63 - 1) / 10 then none
    else
      let x2 := x * 10 + digitVal c
      if x2 > 2 ^ 63 then none
      else leadingInt rest x2

/-- Embedding of Go `leadingFraction`: consumes the digits after the decimal
point, silently stopping the accumulation (but not the consumption) once the
value would overflow; returns the accumulated value, the scale (a power of
ten) and the remaining input. -/
def leadingFraction : List Char → Nat → Nat → Bool → Nat × Nat × List Char
  | [], x, scale, _ => (x, scale, [])
  | c :: rest, x, scale, overflowed =>
    if c < '0' ∨ '9' < c then (x, scale, c :: rest)
    else if overflowed then leadingFraction rest x scale true
    else if x > (2 ^ 63 - 1) / 10 then leadingFraction rest x scale true
    else
      let y := x * 10 + digitVal c
      if y > 2 ^ 63 then leadingFraction rest x scale true
      else leadingFraction rest y (scale * 10) false

/-- Go's `unitMap`: nanoseconds per unit name. -/
def unitMapLookup : String → Option Nat
  | "ns" => some 1
  | "us" => some 1000
  | "µs" => some 1000
  | "μs" => some 1000
  | "ms" => some 1000000
  | "s" => some 1000000000
  | "m" => some 60000000000
  | "h" => some 3600000000000
  | _ => none

/-- Length of the unit name at the head of the input: Go's scan
`for ; i < len(s); i++ { c := s[i]; if c == '.' || '0' <= c && c <= '9' { break } }`. -/
def unitScan : List Char → Nat
  | [] => 0
  | c :: rest => if c = '.' ∨ ('0' ≤ c ∧ c ≤ '9') then 0 else 1 + unitScan rest

/-- The main loop of Go `ParseDuration`, parsing a sequence of
`[0-9]*(\.[0-9]*)?unit` groups and accumulating nanoseconds in `d`.
The `fuel` argument only bounds the recursion; each loop iteration consumes
at least the non-empty unit name, so `fuel = length + 1` never runs out. -/
def parseDurationLoop (orig : String) : Nat → List Char → Nat → Except String Nat
  | 0, _, _ => Except.error (invalidDurationErr orig)
  | _ + 1, [], d => Except.ok d
  | fuel + 1, c :: srest, d =>
    if ¬(c = '.' ∨ ('0' ≤ c ∧ c ≤ '9')) then Except.error (invalidDurationErr orig)
    else
      match leadingInt (c :: srest) 0 with
      | none => Except.error (invalidDurationErr orig)
      | some (v, s1) =>
        let pre : Bool := decide (s1.length ≠ (c :: srest).length)
        let fsr : Nat × Nat × List Char × Bool :=
          match s1 with
          | '.' :: rest =>
            let fr := leadingFraction rest 0 1 false
            (fr.1, fr.2.1, fr.2.2, decide (fr.2.2.length ≠ rest.length))
          | _ => (0, 1, s1, false)
        let f := fsr.1
        let scale := fsr.2.1
        let s2 := fsr.2.2.1
        let post := fsr.2.2.2
        if !pre && !post then Except.error (invalidDurationErr orig)
        else
          let i := unitScan s2
          if i = 0 then Except.error ("time: missing unit in duration " ++ quoteGo orig)
          else
            let u := String.mk (s2.take i)
            let s3 := s2.drop i
            match unitMapLookup u with
            | none =>
              Except.error ("time: unknown unit " ++ quoteGo u ++ " in duration " ++ quoteGo orig)
            | some unit =>
              if v > 2 ^ 63 / unit then Except.error (invalidDurationErr orig)
              else
                let v1 := v * unit
                let v2 := if 0 < f then (v1 + f * unit / scale) % 2 ^ 64 else v1
                if 0 < f ∧ 2 ^ 63 < v2 then Except.error (invalidDurationErr orig)
                else
                  let d2 := (d + v2) % 2 ^ 64
                  if 2 ^ 63 < d2 then Except.error (invalidDurationErr orig)
                  else parseDurationLoop orig fuel s3 d2

/-- Embedding of Go `time.ParseDuration`.  Returns the duration in
nanoseconds as an `Int` (Go's `Duration` is an `int64`), or the error text. -/
def parseDuration (input : String) : Except String Int :=
  let orig := input
  let s0 := input.data
  let negRest : Bool × List Char :=
    match s0 with
    | c :: rest => if c == '-' || c == '+' then (c == '-', rest) else (false, s0)
    | [] => (false, s0)
  let neg := negRest.1
  let s := negRest.2
  if s = ['0'] then Except.ok 0
  else if s = [] then Except.error (invalidDurationErr orig)
  else
    match parseDurationLoop orig (s.length + 1) s 0 with
    | Except.error e => Except.error e
    | Except.ok d =>
      if neg then Except.ok (-(d : Int))
      else if d > 2 ^ 63 - 1 then Except.error (invalidDurationErr orig)
      else Except.ok (d : Int)

/-- Returns true exactly when `parseDuration` succeeds. -/
def parseDurationOk (s : String) : Bool :=
  match parseDuration s with
  | Except.ok _ => true
  | Except.error _ => false

/-- Diagnostic severity, Go `diag.Severity`. -/
inductive Severity where
  | error
  | warning
deriving DecidableEq

/-- Attribute path, Go `cty.Path`; the schema file only threads it through
unchanged, so the steps are left abstract as strings. -/
structure CtyPath where
  steps : List String
deriving DecidableEq

/-- One Go `diag.Diagnostic` as used in this file. -/
structure Diagnostic where
  severity : Severity
  summary : String
  attributePath : CtyPath
deriving DecidableEq

/-- A Go `interface{}` value of the kinds this schema file inspects. -/
inductive GoVal where
  | str : String → GoVal
  | intv : Int → GoVal
  | boolv : Bool → GoVal
  | mapv : List (String × GoVal) → GoVal
  | otherv : GoVal

/-- Embedding of `isNonEmptyDurationString`: a string is checked with
`time.ParseDuration` and a failure is reported with the original string in
the summary; a non-string value yields a fixed error diagnostic. -/
def isNonEmptyDurationString (v : GoVal) (p : CtyPath) : List Diagnostic :=
  match v with
  | GoVal.str vv =>
    match parseDuration vv with
    | Except.error err =>
      [{ severity := Severity.error,
         summary := "could not parse '" ++ vv ++ "': " ++ err,
         attributePath := p }]
    | Except.ok _ => []
  | _ =>
    [{ severity := Severity.error,
       summary := "Should be a duration string",
       attributePath := p }]

end Metakube

namespace Metakube

/-!
Model of the parts of the Terraform plugin SDK `schema.Schema` descriptor
that this file populates, and of the two `helper/validation` constructors it
calls.  A schema is an association list from field name to descriptor,
mirroring the Go map literals (Go map iteration order is irrelevant here:
the schema is only ever consulted by key).
-/

/-- Go `schema.ValueType`, restricted to the types this file uses. -/
inductive ValueType where
  | typeBool
  | typeInt
  | typeString
  | typeList
  | typeMap
deriving DecidableEq

/-- A value stored in a descriptor's `Default` field (`interface{}`). -/
inductive DefaultVal where
  | b : Bool → DefaultVal
  | i : Int → DefaultVal
  | s : String → DefaultVal
deriving DecidableEq

/-- The slice of `schema.ResourceData` visible to the diff-suppression
functions of this file: `GetOkConfigured` on the two integer replica paths,
returning the configured value when the key is set in the configuration
(`some v` models `value, true`; `none` models `not configured`). -/
def ResourceData : Type := String → Option Int

/-- Go `schema.SchemaDiffSuppressFunc`: `func(k, old, new string, d *schema.ResourceData) bool`. -/
def DiffSuppressFuncT : Type := String → String → String → ResourceData → Bool

/-- Go `schema.SchemaValidateFunc`: `func(interface{}, string) ([]string, []error)`;
`none` models a panic from a failed type assertion inside the function. -/
def ValidateFuncT : Type := GoVal → String → Option (List String × List String)

/-- Go `schema.SchemaValidateDiagFunc`: `func(interface{}, cty.Path) diag.Diagnostics`. -/
def ValidateDiagFuncT : Type := GoVal → CtyPath → List Diagnostic

/-- The fields of Go `schema.Schema` that this file sets (besides `Elem`).
Unset fields keep their Go zero values as defaults. -/
structure FieldAttrs where
  type : ValueType
  required : Bool := false
  optional : Bool := false
  computed : Bool := false
  forceNew : Bool := false
  defaultValue : Option DefaultVal := none
  description : String := ""
  minItems : Nat := 0
  maxItems : Nat := 0
  conflictsWith : List String := []
  requiredWith : List String := []
  exactlyOneOf : List String := []
  diffSuppress : Option DiffSuppressFuncT := none
  validateFunc : Option ValidateFuncT := none
  validateDiagFunc : Option ValidateDiagFuncT := none

/-- A schema descriptor together with its `Elem`: absent, a scalar
`&schema.Schema{Type: t}`, or a nested `&schema.Resource{Schema: ...}`. -/
inductive SchemaField where
  | leaf (attrs : FieldAttrs)
  | scalarElem (attrs : FieldAttrs) (elemType : ValueType)
  | resourceElem (attrs : FieldAttrs) (fields : List (String × SchemaField))

/-- The descriptor attributes of a schema field. -/
def SchemaField.attrs : SchemaField → FieldAttrs
  | .leaf a => a
  | .scalarElem a _ => a
  | .resourceElem a _ => a

/-- The nested resource fields of a schema field (empty unless the `Elem`
is a `&schema.Resource`). -/
def SchemaField.elemFields : SchemaField → List (String × SchemaField)
  | .resourceElem _ fs => fs
  | _ => []

/-- Key lookup in a schema map. -/
def lookupField (fields : List (String × SchemaField)) (k : String) : Option SchemaField :=
  (fields.find? (fun p => p.1 == k)).map (fun p => p.2)

/-- The attributes of the schema field at `k`. -/
def fieldAttr (fields : List (String × SchemaField)) (k : String) : Option FieldAttrs :=
  (lookupField fields k).map SchemaField.attrs

/-- The nested resource schema of the field at `k` (empty when absent). -/
def subFields (fields : List (String × SchemaField)) (k : String) : List (String × SchemaField) :=
  match lookupField fields k with
  | some f => f.elemFields
  | none => []

/-- Go `strings.EqualFold`, approximated by simple case folding; it is never
reached in this file because the only `StringInSlice` call passes
`ignoreCase = false`. -/
def stringsEqualFold (a b : String) : Bool := a.toLower == b.toLower

/-- Render of a `[]string` by `fmt.Errorf`'s `%s` verb. -/
def goFmtStringSlice (l : List String) : String :=
  "[" ++ String.intercalate " " l ++ "]"

/-- Embedding of SDK `validation.StringInSlice`: accepts a string equal to
one of `valid` (case-insensitively when `ignoreCase`), errors on any other
string and on non-string values. -/
def validationStringInSlice (valid : List String) (ignoreCase : Bool) : ValidateFuncT :=
  fun i k =>
    match i with
    | GoVal.str v =>
      if valid.any (fun str => v == str || (ignoreCase && stringsEqualFold v str)) then
        some ([], [])
      else
        some ([], ["expected " ++ k ++ " to be one of " ++ goFmtStringSlice valid ++ ", got " ++ v])
    | _ => some ([], ["expected type of " ++ k ++ " to be string"])

/-- Embedding of SDK `validation.IntAtLeast`. -/
def validationIntAtLeast (minVal : Int) : ValidateFuncT :=
  fun i k =>
    match i with
    | GoVal.intv v =>
      if v < minVal then
        some ([], ["expected " ++ k ++ " to be at least (" ++ toString minVal ++ "), got " ++ toString v])
      else
        some ([], [])
    | _ => some ([], ["expected type of " ++ k ++ " to be integer"])

/-- The validator attached to the taint `effect` field:
`validation.StringInSlice([]string{"NoSchedule", "PreferNoSchedule", "NoExecute"}, false)`. -/
def taintEffectValidateFunc : ValidateFuncT :=
  validationStringInSlice ["NoSchedule", "PreferNoSchedule", "NoExecute"] false

/-- The `ValidateFunc` closure attached to the labels field and to the three
tags fields (the Go source repeats this closure literal verbatim four
times): asserts the value is a map and collects one error per key rejected
by `matakubeResourceNodeDeploymentValidateLabelOrTag`. -/
def reservedTagsValidateFunc : ValidateFuncT :=
  fun v _k =>
    match v with
    | GoVal.mapv l =>
      some ([], l.foldl (fun errs p =>
        match matakubeResourceNodeDeploymentValidateLabelOrTag p.1 with
        | some e => errs ++ [e]
        | none => errs) [])
    | _ => none

/-- The `DiffSuppressFunc` closure on the `replicas` field: suppress the
diff when `spec.0.min_replicas` and `spec.0.max_replicas` are both
configured with positive values
(`ok1 && minv.(int) > 0 && ok2 && maxv.(int) > 0`). -/
def replicasDiffSuppressFunc : DiffSuppressFuncT :=
  fun _ _ _ d =>
    let minr := d "spec.0.min_replicas"
    let maxr := d "spec.0.max_replicas"
    minr.isSome && decide (0 < minr.getD 0) && maxr.isSome && decide (0 < maxr.getD 0)

/-- The `DiffSuppressFunc` closure on the template `labels` field. -/
def labelsDiffSuppressFunc : DiffSuppressFuncT :=
  fun k _ _ _ => matakubeResourceNodeDeploymentLabelOrTagReserved k

/-- The `DiffSuppressFunc` closure on the AWS `tags` field. -/
def awsTagsDiffSuppressFunc : DiffSuppressFuncT :=
  fun k _ _ _ => matakubeResourceNodeDeploymentLabelOrTagReserved k

/-- The `DiffSuppressFunc` closure on the OpenStack `tags` field. -/
def openstackTagsDiffSuppressFunc : DiffSuppressFuncT :=
  fun k _ _ _ => matakubeResourceNodeDeploymentLabelOrTagReserved k

/-- The `DiffSuppressFunc` closure on the Azure `tags` field. -/
def azureTagsDiffSuppressFunc : DiffSuppressFuncT :=
  fun k _ _ _ => matakubeResourceNodeDeploymentLabelOrTagReserved k

/-- Embedding of `matakubeResourceNodeDeploymentAWSSchema`. -/
def matakubeResourceNodeDeploymentAWSSchema : List (String × SchemaField) :=
  [ ("instance_type", .leaf
      { type := .typeString, required := true, description := "EC2 instance type" }),
    ("disk_size", .leaf
      { type := .typeInt, required := true,
        description := "Size of the volume in GBs. Only one volume will be created" }),
    ("volume_type", .leaf
      { type := .typeString, required := true, description := "EBS volume type" }),
    ("availability_zone", .leaf
      { type := .typeString, required := true,
        description := "Availability zone in which to place the node. It is coupled with the subnet to which the node will belong" }),
    ("subnet_id", .leaf
      { type := .typeString, required := true,
        description := "The VPC subnet to which the node shall be connected" }),
    ("assign_public_ip", .leaf
      { type := .typeBool, optional := true, defaultValue := some (.b true),
        description := "Flag which controls a property of the AWS instance. When set the AWS instance will get a public IP address assigned during launch overriding a possible setting in the used AWS subnet." }),
    ("ami", .leaf
      { type := .typeString, optional := true,
        description := "Amazon Machine Image to use. Will be defaulted to an AMI of your selected operating system and region" }),
    ("tags", .scalarElem
      { type := .typeMap, optional := true, computed := true,
        description := "Additional instance tags",
        diffSuppress := some awsTagsDiffSuppressFunc,
        validateFunc := some reservedTagsValidateFunc }
      .typeString) ]

/-- Embedding of `matakubeResourceNodeDeploymentCloudOpenstackSchema`. -/
def matakubeResourceNodeDeploymentCloudOpenstackSchema : List (String × SchemaField) :=
  [ ("flavor", .leaf
      { type := .typeString, required := true, description := "Instance type" }),
    ("image", .leaf
      { type := .typeString, required := true, description := "Image to use" }),
    ("disk_size", .leaf
      { type := .typeInt, optional := true,
        validateFunc := some (validationIntAtLeast 1),
        description := "If set, the rootDisk will be a volume. If not, the rootDisk will be on ephemeral storage and its size will be derived from the flavor" }),
    ("tags", .scalarElem
      { type := .typeMap, optional := true, computed := true,
        description := "Additional instance tags",
        diffSuppress := some openstackTagsDiffSuppressFunc,
        validateFunc := some reservedTagsValidateFunc }
      .typeString),
    ("use_floating_ip", .leaf
      { type := .typeBool, optional := true, defaultValue := some (.b true),
        description := "Indicate use of floating ip in case of floating_ip_pool presense" }),
    ("instance_ready_check_period", .leaf
      { type := .typeString, optional := true, defaultValue := some (.s "5s"),
        description := "Specifies how often should the controller check if instance is ready before timing out",
        validateDiagFunc := some isNonEmptyDurationString }),
    ("instance_ready_check_timeout", .leaf
      { type := .typeString, optional := true, defaultValue := some (.s "120s"),
        description := "Specifies how long should the controller check if instance is ready before timing out",
        validateDiagFunc := some isNonEmptyDurationString }) ]

/-- Embedding of `metakubeResourceNodeDeploymentAzureSchema` (which returns
a whole `*schema.Schema` field rather than a map). -/
def metakubeResourceNodeDeploymentAzureSchema : SchemaField :=
  .resourceElem
    { type := .typeList, optional := true, maxItems := 1,
      description := "Azure node deployment specification" }
    [ ("image_id", .leaf
        { type := .typeString, optional := true, description := "Node image id" }),
      ("size", .leaf
        { type := .typeString, required := true, description := "VM size" }),
      ("assign_public_ip", .leaf
        { type := .typeBool, optional := true, defaultValue := some (.b false),
          description := "whether to have public facing IP or not" }),
      ("disk_size_gb", .leaf
        { type := .typeInt, optional := true, defaultValue := some (.i 0),
          forceNew := true, description := "Data disk size in GB" }),
      ("os_disk_size_gb", .leaf
        { type := .typeInt, optional := true, defaultValue := some (.i 0),
          forceNew := true, description := "OS disk size in GB" }),
      ("tags", .scalarElem
        { type := .typeMap, optional := true, computed := true,
          description := "Additional metadata to set",
          diffSuppress := some azureTagsDiffSuppressFunc,
          validateFunc := some reservedTagsValidateFunc }
        .typeString),
      ("zones", .scalarElem
        { type := .typeList, optional := true, computed := true,
          description := "Represents the availablity zones for azure vms" }
        .typeString) ]

/-- Embedding of `matakubeResourceNodeDeploymentSpecFields`. -/
def matakubeResourceNodeDeploymentSpecFields : List (String × SchemaField) :=
  [ ("dynamic_config", .leaf
      { type := .typeBool, optional := true, defaultValue := some (.b false),
        description := "Enable metakube kubelete dynamic config" }),
    ("replicas", .leaf
      { type := .typeInt, optional := true, defaultValue := some (.i 3),
        description := "Number of replicas",
        conflictsWith := ["spec.0.min_replicas", "spec.0.max_replicas"],
        diffSuppress := some replicasDiffSuppressFunc }),
    ("min_replicas", .leaf
      { type := .typeInt, optional := true,
        validateFunc := some (validationIntAtLeast 1),
        description := "Minimum number of replicas to downscale",
        requiredWith := ["spec.0.max_replicas"] }),
    ("max_replicas", .leaf
      { type := .typeInt, optional := true,
        validateFunc := some (validationIntAtLeast 1),
        description := "Maximum number of replicas to scale up",
        requiredWith := ["spec.0.min_replicas"] }),
    ("template", .resourceElem
      { type := .typeList, maxItems := 1, required := true,
        description := "Template specification" }
      [ ("cloud", .resourceElem
          { type := .typeList, maxItems := 1, required := true,
            description := "Cloud specification" }
          [ ("bringyourown", .scalarElem
              { type := .typeMap, optional := true,
                description := "Bring your own infrastructure" }
              .typeString),
            ("aws", .resourceElem
              { type := .typeList, optional := true, maxItems := 1,
                description := "AWS node deployment specification" }
              matakubeResourceNodeDeploymentAWSSchema),
            ("openstack", .resourceElem
              { type := .typeList, optional := true, maxItems := 1,
                description := "OpenStack node deployment specification" }
              matakubeResourceNodeDeploymentCloudOpenstackSchema),
            ("azure", metakubeResourceNodeDeploymentAzureSchema) ]),
        ("operating_system", .resourceElem
          { type := .typeList, required := true, minItems := 1, maxItems := 1,
            description := "Operating system" }
          [ ("ubuntu", .resourceElem
              { type := .typeList, optional := true, minItems := 1, maxItems := 1,
                exactlyOneOf := ["spec.0.template.0.operating_system.0.ubuntu",
                                 "spec.0.template.0.operating_system.0.flatcar"],
                description := "Ubuntu operating system" }
              [ ("dist_upgrade_on_boot", .leaf
                  { type := .typeBool, optional := true, defaultValue := some (.b false),
                    description := "Upgrade operating system on boot" }) ]),
            ("flatcar", .resourceElem
              { type := .typeList, optional := true, minItems := 1, maxItems := 1,
                exactlyOneOf := ["spec.0.template.0.operating_system.0.ubuntu",
                                 "spec.0.template.0.operating_system.0.flatcar"],
                description := "Flatcar operating system" }
              [ ("disable_auto_update", .leaf
                  { type := .typeBool, optional := true, defaultValue := some (.b false),
                    description := "Disable flatcar auto update feature" }) ]) ]),
        ("versions", .resourceElem
          { type := .typeList, optional := true, computed := true, maxItems := 1,
            description := "Cloud components versions" }
          [ ("kubelet", .leaf
              { type := .typeString, optional := true, computed := true,
                description := "Kubelet version" }) ]),
        ("labels", .scalarElem
          { type := .typeMap, optional := true, computed := true,
            description := "Map of string keys and values that can be used to organize and categorize (scope and select) objects. It will be applied to Nodes allowing users run their apps on specific Node using labelSelector.",
            diffSuppress := some labelsDiffSuppressFunc,
            validateFunc := some reservedTagsValidateFunc }
          .typeString),
        ("taints", .resourceElem
          { type := .typeList, optional := true,
            description := "List of taints to set on new nodes" }
          [ ("effect", .leaf
              { type := .typeString, required := true,
                description := "Taint effect",
                validateFunc := some taintEffectValidateFunc }),
            ("key", .leaf
              { type := .typeString, required := true, description := "Taint key" }),
            ("value", .leaf
              { type := .typeString, required := true, description := "Taint value" }) ]) ]) ]

/-- The fields of the template block. -/
def templateFields : List (String × SchemaField) :=
  subFields matakubeResourceNodeDeploymentSpecFields "template"

/-- The fields of the cloud block. -/
def cloudFields : List (String × SchemaField) :=
  subFields templateFields "cloud"

/-- The fields of the operating-system block. -/
def operatingSystemFields : List (String × SchemaField) :=
  subFields templateFields "operating_system"

/-- The fields of the taints element. -/
def taintsFields : List (String × SchemaField) :=
  subFields templateFields "taints"

/-- The fields of the AWS block as wired into the cloud block. -/
def awsFields : List (String × SchemaField) :=
  subFields cloudFields "aws"

/-- The fields of the OpenStack block as wired into the cloud block. -/
def openstackFields : List (String × SchemaField) :=
  subFields cloudFields "openstack"

/-- The fields of the Azure block as wired into the cloud block. -/
def azureFields : List (String × SchemaField) :=
  subFields cloudFields "azure"

end Metakube

namespace Metakube

/-- C2: the reserved predicate returns true exactly when the key contains at
least one of the seven fixed reserved substrings, and false when it contains
none of them. -/
theorem C2_reserved_iff (key : String) :
    matakubeResourceNodeDeploymentLabelOrTagReserved key = true ↔
      ("metakube-cluster".data <:+: key.data ∨
       "system-project".data <:+: key.data ∨
       "system-cluster".data <:+: key.data ∨
       "system/cluster".data <:+: key.data ∨
       "system/project".data <:+: key.data ∨
       "kubernetes.io".data <:+: key.data ∨
       "syseleven.de".data <:+: key.data) := by
  simp [matakubeResourceNodeDeploymentLabelOrTagReserved, stringsContains]

/-- C2 witness: the predicate evaluated at concrete reserved and
non-reserved keys, obtained through `C2_reserved_iff`. -/
theorem C2_reserved_iff_witness :
    matakubeResourceNodeDeploymentLabelOrTagReserved "a.kubernetes.io/b" = true ∧
      ¬ matakubeResourceNodeDeploymentLabelOrTagReserved "plain-key" = true := by
  constructor
  · exact (C2_reserved_iff "a.kubernetes.io/b").mpr (by
      refine Or.inr (Or.inr (Or.inr (Or.inr (Or.inr (Or.inl ?_)))))
      decide)
  · intro h
    have := (C2_reserved_iff "plain-key").mp h
    revert this
    decide

/-- C3: the validator errors exactly on keys matching the forbidden-prefix
regular expression (one of the four reserved names followed by `/` or `-`),
and the error message contains the offending key; otherwise it returns nil. -/
theorem C3_validate_label_or_tag (key : String) :
    ((matakubeResourceNodeDeploymentValidateLabelOrTag key).isSome = true ↔
      ∃ p ∈ (["syseleven.de", "metakube", "system", "kubernetes.io"] : List String),
        ∃ sep ∈ (["/", "-"] : List String), (p ++ sep).data <+: key.data) ∧
    (∀ msg, matakubeResourceNodeDeploymentValidateLabelOrTag key = some msg →
      key.data <:+: msg.data) := by
  constructor
  · rw [matakubeResourceNodeDeploymentValidateLabelOrTag]
    by_cases h : forbiddenLabelOrTagRegexMatch key = true
    · simp only [h, if_true, Option.isSome_some, true_iff]
      rw [forbiddenLabelOrTagRegexMatch] at h
      simpa using h
    · simp only [Bool.not_eq_true] at h
      simp only [h, Bool.false_eq_true, if_false, Option.isSome_none,
        Bool.false_eq_true, false_iff]
      intro hex
      have hmatch : forbiddenLabelOrTagRegexMatch key = true := by
        simpa [forbiddenLabelOrTagRegexMatch] using hex
      rw [h] at hmatch
      exact Bool.false_ne_true hmatch
  · intro msg hmsg
    rw [matakubeResourceNodeDeploymentValidateLabelOrTag] at hmsg
    by_cases h : forbiddenLabelOrTagRegexMatch key = true
    · simp only [h, if_true, Option.some.injEq] at hmsg
      subst hmsg
      exact ⟨"forbidden tag or label prefix ".data, [], by simp⟩
    · simp [h] at hmsg

/-- C3 witness: on the matching key `system-bar` the validator produces an
error message containing the key, via `C3_validate_label_or_tag`. -/
theorem C3_validate_label_or_tag_witness :
    "system-bar".data <:+: "forbidden tag or label prefix system-bar".data :=
  (C3_validate_label_or_tag "system-bar").2
    "forbidden tag or label prefix system-bar" rfl

/-- C4: the duration validator returns no diagnostics exactly on strings
that `time.ParseDuration` accepts; on a string that fails to parse it
returns exactly one error-severity diagnostic whose summary contains the
original string, and on a non-string value exactly one error-severity
diagnostic. -/
theorem C4_duration_validator (s : String) (p : CtyPath) :
    (isNonEmptyDurationString (GoVal.str s) p = [] ↔ parseDurationOk s = true) ∧
    (∀ e, parseDuration s = Except.error e →
      isNonEmptyDurationString (GoVal.str s) p =
        [{ severity := Severity.error,
           summary := "could not parse '" ++ s ++ "': " ++ e,
           attributePath := p }] ∧
      s.data <:+: ("could not parse '" ++ s ++ "': " ++ e).data) ∧
    (∀ v : GoVal, (∀ t, v ≠ GoVal.str t) →
      isNonEmptyDurationString v p =
        [{ severity := Severity.error,
           summary := "Should be a duration string",
           attributePath := p }]) := by
  refine ⟨?_, ?_, ?_⟩
  · rw [isNonEmptyDurationString, parseDurationOk]
    cases parseDuration s <;> simp
  · intro e he
    refine ⟨by simp [isNonEmptyDurationString, he], ?_⟩
    refine ⟨"could not parse '".data, ("': " ++ e).data, ?_⟩
    simp [String.data_append]
  · intro v hv
    cases v with
    | str t => exact absurd rfl (hv t)
    | intv n => rfl
    | boolv b => rfl
    | mapv l => rfl
    | otherv => rfl

/-- C4 witness: concrete runs of the validator through
`C4_duration_validator`: the parseable string `"5s"` produces no
diagnostics; the unparseable string `"abc"` produces the single error
diagnostic naming it; a non-string value produces the single error
diagnostic. -/
theorem C4_duration_validator_witness :
    isNonEmptyDurationString (GoVal.str "5s") { steps := [] } = [] ∧
    isNonEmptyDurationString (GoVal.str "abc") { steps := [] } =
      [{ severity := Severity.error,
         summary := "could not parse 'abc': time: invalid duration \"abc\"",
         attributePath := { steps := [] } }] ∧
    isNonEmptyDurationString (GoVal.intv 120) { steps := [] } =
      [{ severity := Severity.error,
         summary := "Should be a duration string",
         attributePath := { steps := [] } }] :=
  ⟨(C4_duration_validator "5s" { steps := [] }).1.mpr (by decide),
   ((C4_duration_validator "abc" { steps := [] }).2.1
      "time: invalid duration \"abc\"" rfl).1,
   (C4_duration_validator "abc" { steps := [] }).2.2 (GoVal.intv 120)
      (fun t h => GoVal.noConfusion h)⟩

/-- C1 counterexample: the claim says the schema declares a
choose-exactly-one constraint on the four cloud backend sub-blocks, but none
of `aws`, `openstack`, `azure`, `bringyourown` carries any `ExactlyOneOf`
(or `ConflictsWith`) declaration — all four lists are empty. -/
theorem C1_cloud_no_exclusivity_declared :
    (fieldAttr cloudFields "aws").map FieldAttrs.exactlyOneOf = some [] ∧
    (fieldAttr cloudFields "openstack").map FieldAttrs.exactlyOneOf = some [] ∧
    (fieldAttr cloudFields "azure").map FieldAttrs.exactlyOneOf = some [] ∧
    (fieldAttr cloudFields "bringyourown").map FieldAttrs.exactlyOneOf = some [] ∧
    (fieldAttr cloudFields "aws").map FieldAttrs.conflictsWith = some [] ∧
    (fieldAttr cloudFields "openstack").map FieldAttrs.conflictsWith = some [] ∧
    (fieldAttr cloudFields "azure").map FieldAttrs.conflictsWith = some [] ∧
    (fieldAttr cloudFields "bringyourown").map FieldAttrs.conflictsWith = some [] :=
  ⟨rfl, rfl, rfl, rfl, rfl, rfl, rfl, rfl⟩

/-- C1 (amended): the cloud block contains exactly the four backend
sub-blocks `bringyourown`, `aws`, `openstack`, `azure`; each is declared
merely `Optional` (not `Required`), and the schema declares no
mutual-exclusivity constraint among them: every one of their `ExactlyOneOf`
and `ConflictsWith` lists is empty, so exclusive selection of one backend is
not expressed in the schema declaration. -/
theorem C1_cloud_backends_all_optional_unconstrained :
    (cloudFields.map (fun p => p.1)) = ["bringyourown", "aws", "openstack", "azure"] ∧
    (fieldAttr cloudFields "bringyourown").map
        (fun a => (a.optional, a.required, a.exactlyOneOf, a.conflictsWith)) =
      some (true, false, [], []) ∧
    (fieldAttr cloudFields "aws").map
        (fun a => (a.optional, a.required, a.exactlyOneOf, a.conflictsWith)) =
      some (true, false, [], []) ∧
    (fieldAttr cloudFields "openstack").map
        (fun a => (a.optional, a.required, a.exactlyOneOf, a.conflictsWith)) =
      some (true, false, [], []) ∧
    (fieldAttr cloudFields "azure").map
        (fun a => (a.optional, a.required, a.exactlyOneOf, a.conflictsWith)) =
      some (true, false, [], []) :=
  ⟨rfl, rfl, rfl, rfl, rfl⟩

/-- C5: the `replicas` field declares `ConflictsWith` the two autoscaling
bound paths, and `min_replicas` / `max_replicas` each declare `RequiredWith`
the other. -/
theorem C5_replicas_conflicts_with_bounds :
    (fieldAttr matakubeResourceNodeDeploymentSpecFields "replicas").map FieldAttrs.conflictsWith =
      some ["spec.0.min_replicas", "spec.0.max_replicas"] ∧
    (fieldAttr matakubeResourceNodeDeploymentSpecFields "min_replicas").map FieldAttrs.requiredWith =
      some ["spec.0.max_replicas"] ∧
    (fieldAttr matakubeResourceNodeDeploymentSpecFields "max_replicas").map FieldAttrs.requiredWith =
      some ["spec.0.min_replicas"] :=
  ⟨rfl, rfl, rfl⟩

/-- C6: `ubuntu` and `flatcar` each declare `ExactlyOneOf` over exactly the
pair of operating-system paths, so configuring neither or both is rejected
by the framework. -/
theorem C6_operating_system_exactly_one :
    (fieldAttr operatingSystemFields "ubuntu").map FieldAttrs.exactlyOneOf =
      some ["spec.0.template.0.operating_system.0.ubuntu",
            "spec.0.template.0.operating_system.0.flatcar"] ∧
    (fieldAttr operatingSystemFields "flatcar").map FieldAttrs.exactlyOneOf =
      some ["spec.0.template.0.operating_system.0.ubuntu",
            "spec.0.template.0.operating_system.0.flatcar"] :=
  ⟨rfl, rfl⟩

/-- C7: the declared defaults — OpenStack `instance_ready_check_period`
`"5s"`, OpenStack `instance_ready_check_timeout` `"120s"`, `replicas` `3`,
AWS `assign_public_ip` `true`, Azure `assign_public_ip` `false`. -/
theorem C7_declared_defaults :
    (fieldAttr matakubeResourceNodeDeploymentCloudOpenstackSchema
        "instance_ready_check_period").map FieldAttrs.defaultValue =
      some (some (.s "5s")) ∧
    (fieldAttr matakubeResourceNodeDeploymentCloudOpenstackSchema
        "instance_ready_check_timeout").map FieldAttrs.defaultValue =
      some (some (.s "120s")) ∧
    (fieldAttr matakubeResourceNodeDeploymentSpecFields "replicas").map FieldAttrs.defaultValue =
      some (some (.i 3)) ∧
    (fieldAttr matakubeResourceNodeDeploymentAWSSchema "assign_public_ip").map
        FieldAttrs.defaultValue = some (some (.b true)) ∧
    (fieldAttr azureFields "assign_public_ip").map FieldAttrs.defaultValue =
      some (some (.b false)) :=
  ⟨rfl, rfl, rfl, rfl, rfl⟩

/-- C8: the four label/tag map fields each install their diff-suppression
closure, and every one of the four closures returns, on every argument
tuple, exactly the value of the reserved-prefix predicate on the key. -/
theorem C8_diff_suppression_is_reserved_predicate :
    (fieldAttr templateFields "labels").map FieldAttrs.diffSuppress =
      some (some labelsDiffSuppressFunc) ∧
    (fieldAttr awsFields "tags").map FieldAttrs.diffSuppress =
      some (some awsTagsDiffSuppressFunc) ∧
    (fieldAttr openstackFields "tags").map FieldAttrs.diffSuppress =
      some (some openstackTagsDiffSuppressFunc) ∧
    (fieldAttr azureFields "tags").map FieldAttrs.diffSuppress =
      some (some azureTagsDiffSuppressFunc) ∧
    ∀ (k o n : String) (d : ResourceData),
      labelsDiffSuppressFunc k o n d = matakubeResourceNodeDeploymentLabelOrTagReserved k ∧
      awsTagsDiffSuppressFunc k o n d = matakubeResourceNodeDeploymentLabelOrTagReserved k ∧
      openstackTagsDiffSuppressFunc k o n d = matakubeResourceNodeDeploymentLabelOrTagReserved k ∧
      azureTagsDiffSuppressFunc k o n d = matakubeResourceNodeDeploymentLabelOrTagReserved k :=
  ⟨rfl, rfl, rfl, rfl, fun _ _ _ _ => ⟨rfl, rfl, rfl, rfl⟩⟩

/-- C9: the `replicas` field's diff-suppression closure returns true exactly
when `spec.0.min_replicas` and `spec.0.max_replicas` are both configured
with values strictly greater than zero. -/
theorem C9_replicas_diff_suppression :
    (fieldAttr matakubeResourceNodeDeploymentSpecFields "replicas").map FieldAttrs.diffSuppress =
      some (some replicasDiffSuppressFunc) ∧
    ∀ (k o n : String) (d : ResourceData),
      (replicasDiffSuppressFunc k o n d = true ↔
        (∃ a, d "spec.0.min_replicas" = some a ∧ 0 < a) ∧
        (∃ b, d "spec.0.max_replicas" = some b ∧ 0 < b)) := by
  refine ⟨rfl, fun k o n d => ?_⟩
  cases hmin : d "spec.0.min_replicas" <;> cases hmax : d "spec.0.max_replicas" <;>
    simp [replicasDiffSuppressFunc, hmin, hmax]

/-- C9 witness: through `C9_replicas_diff_suppression`, the diff is
suppressed for a configuration with both bounds set positive, and not
suppressed when only the minimum is configured. -/
theorem C9_replicas_diff_suppression_witness :
    replicasDiffSuppressFunc "spec.0.replicas" "3" "5"
      (fun path => if path == "spec.0.min_replicas" then some 2
                   else if path == "spec.0.max_replicas" then some 5 else none) = true ∧
    ¬ replicasDiffSuppressFunc "spec.0.replicas" "3" "5"
      (fun path => if path == "spec.0.min_replicas" then some 2 else none) = true := by
  constructor
  · exact (C9_replicas_diff_suppression.2 "spec.0.replicas" "3" "5" _).mpr
      ⟨⟨2, by decide, by decide⟩, ⟨5, by decide, by decide⟩⟩
  · decide

/-- C10: the taint `effect` validator is `StringInSlice` over the three
case-sensitive effect names: it accepts exactly `NoSchedule`,
`PreferNoSchedule` and `NoExecute`, and reports an error naming any other
string. -/
theorem C10_taint_effect_validator (s k : String) :
    (fieldAttr taintsFields "effect").map FieldAttrs.validateFunc =
      some (some taintEffectValidateFunc) ∧
    (taintEffectValidateFunc (GoVal.str s) k = some ([], []) ↔
      s = "NoSchedule" ∨ s = "PreferNoSchedule" ∨ s = "NoExecute") ∧
    ((s ≠ "NoSchedule" ∧ s ≠ "PreferNoSchedule" ∧ s ≠ "NoExecute") →
      taintEffectValidateFunc (GoVal.str s) k =
        some ([], ["expected " ++ k ++ " to be one of " ++
          goFmtStringSlice ["NoSchedule", "PreferNoSchedule", "NoExecute"] ++
          ", got " ++ s])) := by
  refine ⟨rfl, ?_, ?_⟩
  · by_cases h1 : s = "NoSchedule" <;> by_cases h2 : s = "PreferNoSchedule" <;>
      by_cases h3 : s = "NoExecute" <;>
      simp [taintEffectValidateFunc, validationStringInSlice, h1, h2, h3]
  · intro ⟨h1, h2, h3⟩
    simp [taintEffectValidateFunc, validationStringInSlice, goFmtStringSlice, h1, h2, h3]

/-- C10 witness: via `C10_taint_effect_validator`, `NoSchedule` is accepted
and `noschedule` (wrong case) is rejected with the expected message. -/
theorem C10_taint_effect_validator_witness :
    taintEffectValidateFunc (GoVal.str "NoSchedule") "effect" = some ([], []) ∧
    taintEffectValidateFunc (GoVal.str "noschedule") "effect" =
      some ([], ["expected effect to be one of [NoSchedule PreferNoSchedule NoExecute], got noschedule"]) :=
  ⟨(C10_taint_effect_validator "NoSchedule" "effect").2.1.mpr (Or.inl rfl),
   (C10_taint_effect_validator "noschedule" "effect").2.2
     ⟨by decide, by decide, by decide⟩⟩

end Metakube
